import Mathlib

/-!
Verification of the CAMARA catalog service (search / rank / paginate engine,
detail lookup, comparison) against its natural-language specification.

The definitions below are a shallow embedding of `src/services/catalog.ts`
(`searchScore`, `searchApis`, `getApiDetail`), the `camara_compare_apis`
handler of `src/tools/register.ts`, and the static catalog data of
`src/constants.ts`.  JavaScript strings are modelled as Lean `String`,
`String.prototype.toLowerCase` as ASCII lowercasing (all catalog text and the
queries of interest are ASCII at the letters that matter),
`String.prototype.includes` as substring containment, `Array.prototype.slice`
by its ECMAScript index-clamping semantics, and `Array.prototype.sort` (with
a consistent comparator) as insertion sort with the comparator's reflexive
closure.
-/

set_option maxRecDepth 100000
set_option linter.unreachableTactic false
set_option linter.unusedTactic false
set_option linter.unnecessarySeqFocus false
set_option linter.unusedVariables false

-- ─── String model ───────────────────────────────────────────────────

/-- ASCII lowercasing of one character, the fragment of
`String.prototype.toLowerCase` relevant to this catalog. -/
def lowerChar (c : Char) : Char :=
  if 65 ≤ c.toNat ∧ c.toNat ≤ 90 then Char.ofNat (c.toNat + 32) else c

/-- Lowercase every character of a string (model of `toLowerCase`). -/
def lowerStr (s : String) : String :=
  ⟨s.data.map lowerChar⟩

/-- Does `hay` start with `needle`? -/
def startsWithL (needle hay : List Char) : Bool :=
  match needle, hay with
  | [], _ => true
  | _ :: _, [] => false
  | a :: as, b :: bs => a == b && startsWithL as bs

/-- Does `needle` occur as a contiguous substring of `hay`?  Model of
`String.prototype.includes` (true for the empty needle). -/
def substrL (needle : List Char) : List Char → Bool
  | [] => startsWithL needle []
  | c :: t => startsWithL needle (c :: t) || substrL needle t

/-- String-level substring containment: `containsStr hay needle`. -/
def containsStr (hay needle : String) : Bool :=
  substrL needle.data hay.data

/-- Case-insensitive substring containment, as the spec words it. -/
def ciContains (hay needle : String) : Bool :=
  containsStr (lowerStr hay) (lowerStr needle)

/-- Strict code-point (ordinal) comparison of character lists. -/
def ordLtL (a b : List Char) : Bool :=
  match a, b with
  | [], [] => false
  | [], _ :: _ => true
  | _ :: _, [] => false
  | x :: xs, y :: ys => x < y || (x == y && ordLtL xs ys)

/-- Strict case-sensitive ordinal (code-point) string comparison, the
comparison the spec asserts for the name tie-break. -/
def ordinalLt (a b : String) : Bool :=
  ordLtL a.data b.data

-- ─── Data model (src/constants.ts) ──────────────────────────────────

def CAMARA_BASE_URL : String := "https://github.com/camaraproject"

/-- Stable-variant catalog record, field for field the `CamaraApi`
interface of `src/constants.ts`. -/
structure CamaraApi where
  name : String
  slug : String
  category : String
  status : String
  description : String
  useCases : List String
  latestVersion : String
  previousVersions : List String
  repository : String
  websiteUrl : String
  specUrl : String
  industries : List String
  authFlow : String
  httpMethods : List String
  keyEndpoints : List String
deriving DecidableEq, Repr

/-- Initial-variant catalog record, the `InitialApi` interface of
`src/constants.ts`. -/
structure InitialApi where
  name : String
  slug : String
  category : String
  version : String
  repository : String
  description : String
deriving DecidableEq, Repr

-- ─── The 10 stable APIs (src/constants.ts, STABLE_APIS) ─────────────

def numberVerificationApi : CamaraApi :=
  { name := "Number Verification"
    slug := "number-verification"
    category := "auth-fraud"
    status := "stable"
    description := "Confirms ownership of a mobile phone number by matching it against the network-authenticated identity. Eliminates SMS OTP friction. Two mechanisms: network-based (operator knows subscriber) and SIM-based (subscriber SIM authentication)."
    useCases := ["Account creation with phone number verification",
      "Secure login without SMS OTP",
      "Transaction validation for banking/fintech",
      "Account recovery and device migration",
      "Anti-fraud: prevent SIM swap account takeover"]
    latestVersion := "2.1.0"
    previousVersions := ["2.0.0", "1.0.0"]
    repository := "NumberVerification"
    websiteUrl := "https://camaraproject.org/number-verification/"
    specUrl := CAMARA_BASE_URL ++ "/NumberVerification"
    industries := ["Banking", "E-Commerce", "Healthcare", "Insurance", "Fintech"]
    authFlow := "OIDC Authorization Code Flow (3-legged)"
    httpMethods := ["POST"]
    keyEndpoints := ["POST /number-verifications/v2/verify - Verify phone number ownership",
      "POST /number-verifications/v2/device-phone-number - Retrieve device phone number"] }

def simSwapApi : CamaraApi :=
  { name := "SIM Swap"
    slug := "sim-swap"
    category := "auth-fraud"
    status := "stable"
    description := "Detects whether a SIM card swap has occurred on a mobile line within a specified time window. Returns boolean or timestamp of last swap. Critical for fraud prevention in financial services."
    useCases := ["Fraud detection during high-value transactions",
      "Account takeover prevention",
      "KYC enhancement for onboarding",
      "Insurance claim validation",
      "Risk scoring for lending decisions"]
    latestVersion := "2.1.0"
    previousVersions := ["2.0.0", "1.0.0"]
    repository := "SimSwap"
    websiteUrl := "https://camaraproject.org/sim-swap/"
    specUrl := CAMARA_BASE_URL ++ "/SimSwap"
    industries := ["Banking", "Fintech", "Insurance", "Payments"]
    authFlow := "OIDC Client Credentials (2-legged) or Authorization Code (3-legged)"
    httpMethods := ["POST"]
    keyEndpoints := ["POST /sim-swap/v2/check - Check if SIM swap occurred in time window",
      "POST /sim-swap/v2/retrieve-date - Get date of last SIM swap"] }

def locationVerificationApi : CamaraApi :=
  { name := "Location Verification"
    slug := "location-verification"
    category := "location"
    status := "stable"
    description := "Determines whether a mobile device is within the proximity of a specified geographical area (circle with lat/lng center and radius). Network-based location verification without requiring device-side GPS permissions."
    useCases := ["Fraud prevention for location-dependent banking transactions",
      "Insurance claim geolocation validation",
      "Age-gated content delivery verification",
      "Logistics and delivery confirmation",
      "Regulatory compliance (geo-restriction enforcement)"]
    latestVersion := "3.0.0"
    previousVersions := ["2.0.0", "1.0.0"]
    repository := "DeviceLocation"
    websiteUrl := "https://camaraproject.org/location-verification/"
    specUrl := CAMARA_BASE_URL ++ "/DeviceLocation"
    industries := ["Banking", "Insurance", "Logistics", "Retail", "Government"]
    authFlow := "OIDC Authorization Code Flow (3-legged)"
    httpMethods := ["POST"]
    keyEndpoints := ["POST /location-verification/v3/verify - Verify device is within area"] }

def deviceReachabilityStatusApi : CamaraApi :=
  { name := "Device Reachability Status"
    slug := "device-reachability-status"
    category := "device-info"
    status := "stable"
    description := "Checks whether a mobile device is currently reachable on the network (connected, not connected, or SMS-only). Supports event subscriptions for status change notifications."
    useCases := ["IoT device monitoring and health checks",
      "Optimizing push notification delivery",
      "Customer engagement timing",
      "Service level agreement monitoring",
      "Emergency communications readiness"]
    latestVersion := "1.1.0"
    previousVersions := ["1.0.0", "0.6.1"]
    repository := "DeviceReachabilityStatus"
    websiteUrl := "https://camaraproject.org/device-reachability-status/"
    specUrl := CAMARA_BASE_URL ++ "/DeviceReachabilityStatus"
    industries := ["IoT", "Telecom", "Logistics", "Healthcare"]
    authFlow := "OIDC Client Credentials (2-legged)"
    httpMethods := ["POST"]
    keyEndpoints := ["POST /device-reachability-status/v1/retrieve - Get current reachability status"] }

def deviceRoamingStatusApi : CamaraApi :=
  { name := "Device Roaming Status"
    slug := "device-roaming-status"
    category := "device-info"
    status := "stable"
    description := "Determines whether a mobile device is currently roaming and, if so, in which country. Supports event subscriptions for roaming status changes."
    useCases := ["Personalized pricing based on roaming status",
      "Compliance with data sovereignty requirements",
      "Travel insurance activation",
      "Fraud detection (unexpected roaming)",
      "Content and service adaptation by region"]
    latestVersion := "1.1.0"
    previousVersions := ["1.0.0", "0.6.1"]
    repository := "DeviceRoamingStatus"
    websiteUrl := "https://camaraproject.org/device-roaming-status/"
    specUrl := CAMARA_BASE_URL ++ "/DeviceRoamingStatus"
    industries := ["Travel", "Insurance", "Banking", "Telecom"]
    authFlow := "OIDC Client Credentials (2-legged)"
    httpMethods := ["POST"]
    keyEndpoints := ["POST /device-roaming-status/v1/retrieve - Get current roaming status"] }

def oneTimePasswordSmsApi : CamaraApi :=
  { name := "One-Time Password SMS"
    slug := "one-time-password-sms"
    category := "auth-fraud"
    status := "stable"
    description := "Sends short-lived OTPs to a phone number via SMS and validates them. Network-based delivery without relying on third-party SMS aggregators. Operator-grade delivery assurance."
    useCases := ["Two-factor authentication",
      "Account recovery verification",
      "Transaction confirmation",
      "Secure sign-up flows",
      "Passwordless authentication"]
    latestVersion := "1.1.1"
    previousVersions := ["1.1.0", "1.0.0"]
    repository := "OTPValidation"
    websiteUrl := "https://camaraproject.org/one-time-password-sms/"
    specUrl := CAMARA_BASE_URL ++ "/OTPValidation"
    industries := ["Banking", "E-Commerce", "Healthcare", "SaaS"]
    authFlow := "OIDC Client Credentials (2-legged)"
    httpMethods := ["POST"]
    keyEndpoints := ["POST /otp/v1/send-code - Send OTP to phone number",
      "POST /otp/v1/validate-code - Validate received OTP"] }

def qualityOnDemandApi : CamaraApi :=
  { name := "Quality on Demand"
    slug := "quality-on-demand"
    category := "communication-quality"
    status := "stable"
    description := "Request and manage specific network quality (bandwidth, latency) for a device session. Enables premium network performance for latency-sensitive applications like gaming, video, and AR/VR."
    useCases := ["Cloud gaming session quality guarantee",
      "Video conferencing quality boost",
      "AR/VR experience optimization",
      "Live streaming priority bandwidth",
      "Industrial IoT critical communications"]
    latestVersion := "1.1.0"
    previousVersions := ["1.0.0", "0.11.1"]
    repository := "QualityOnDemand"
    websiteUrl := "https://camaraproject.org/quality-on-demand/"
    specUrl := CAMARA_BASE_URL ++ "/QualityOnDemand"
    industries := ["Gaming", "Media", "AR/VR", "Enterprise", "IoT"]
    authFlow := "OIDC Client Credentials (2-legged) or Authorization Code (3-legged)"
    httpMethods := ["POST", "GET", "DELETE"]
    keyEndpoints := ["POST /qod/v1/sessions - Create QoS session",
      "GET /qod/v1/sessions/{sessionId} - Get session status",
      "DELETE /qod/v1/sessions/{sessionId} - Terminate session"] }

def qosProfilesApi : CamaraApi :=
  { name := "QoS Profiles"
    slug := "qos-profiles"
    category := "communication-quality"
    status := "stable"
    description := "Discover available Quality of Service profiles offered by a network operator. Profiles define bandwidth, latency, and jitter parameters that can be requested via the Quality on Demand API."
    useCases := ["Service catalog discovery",
      "Dynamic QoS profile selection",
      "Network capability assessment",
      "SLA-based service provisioning"]
    latestVersion := "1.1.0"
    previousVersions := ["1.0.0", "0.11.1"]
    repository := "QualityOnDemand"
    websiteUrl := "https://camaraproject.org/qos-profiles/"
    specUrl := CAMARA_BASE_URL ++ "/QualityOnDemand"
    industries := ["Gaming", "Media", "Enterprise", "IoT"]
    authFlow := "OIDC Client Credentials (2-legged)"
    httpMethods := ["GET"]
    keyEndpoints := ["GET /qos-profiles/v1 - List available QoS profiles",
      "GET /qos-profiles/v1/{profileId} - Get profile details"] }

def simpleEdgeDiscoveryApi : CamaraApi :=
  { name := "Simple Edge Discovery"
    slug := "simple-edge-discovery"
    category := "computing"
    status := "stable"
    description := "Discover optimal Multi-access Edge Computing (MEC) endpoints closest to a user\x27s device. Enables low-latency edge deployment for applications requiring proximity computing."
    useCases := ["Edge application deployment optimization",
      "Latency-sensitive workload placement",
      "CDN edge node selection",
      "Mobile gaming server selection",
      "AR/VR edge rendering"]
    latestVersion := "2.0.0"
    previousVersions := ["1.0.0"]
    repository := "SimpleEdgeDiscovery"
    websiteUrl := "https://camaraproject.org/simple-edge-discovery/"
    specUrl := CAMARA_BASE_URL ++ "/SimpleEdgeDiscovery"
    industries := ["Gaming", "AR/VR", "CDN", "Cloud", "IoT"]
    authFlow := "OIDC Client Credentials (2-legged)"
    httpMethods := ["GET"]
    keyEndpoints := ["GET /edge-discovery/v2/mec-platforms - Discover nearest MEC platforms"] }

def deviceSwapApi : CamaraApi :=
  { name := "Device Swap"
    slug := "device-swap"
    category := "device-info"
    status := "stable"
    description := "Detects whether the physical device (IMEI) associated with a mobile subscription has changed. Similar to SIM Swap but tracks the hardware device rather than the SIM card."
    useCases := ["Fraud detection (unexpected device changes)",
      "Device financing risk management",
      "Insurance claim validation",
      "Account security monitoring",
      "Customer lifecycle management"]
    latestVersion := "1.0.0"
    previousVersions := ["0.2.0"]
    repository := "DeviceSwap"
    websiteUrl := "https://camaraproject.org/device-swap/"
    specUrl := CAMARA_BASE_URL ++ "/DeviceSwap"
    industries := ["Banking", "Insurance", "Device Finance", "Telecom"]
    authFlow := "OIDC Client Credentials (2-legged) or Authorization Code (3-legged)"
    httpMethods := ["POST"]
    keyEndpoints := ["POST /device-swap/v1/check - Check if device swap occurred",
      "POST /device-swap/v1/retrieve-date - Get date of last device swap"] }

def STABLE_APIS : List CamaraApi :=
  [numberVerificationApi, simSwapApi, locationVerificationApi,
   deviceReachabilityStatusApi, deviceRoamingStatusApi, oneTimePasswordSmsApi,
   qualityOnDemandApi, qosProfilesApi, simpleEdgeDiscoveryApi, deviceSwapApi]

-- ─── The 21 initial APIs (src/constants.ts, INITIAL_APIS) ───────────

def INITIAL_APIS : List InitialApi :=
  [{ name := "Application Profiles", slug := "application-profiles", category := "communication-quality", version := "0.5.0", repository := "ApplicationProfiles", description := "Define and manage application requirements for network service optimization." },
   { name := "Call Forwarding Signal", slug := "call-forwarding-signal", category := "auth-fraud", version := "0.4.0", repository := "CallForwardingSignal", description := "Detect if a phone number has call forwarding enabled — fraud prevention signal." },
   { name := "Carrier Billing", slug := "carrier-billing", category := "payments", version := "0.5.0", repository := "CarrierBillingCheckOut", description := "Charge digital content purchases to the mobile subscriber\x27s bill." },
   { name := "Connectivity Insights", slug := "connectivity-insights", category := "communication-quality", version := "0.5.0", repository := "ConnectivityInsights", description := "Network quality predictions and monitoring for application sessions." },
   { name := "Customer Insights", slug := "customer-insights", category := "identity", version := "0.2.0", repository := "CustomerInsights", description := "Anonymized aggregate insights about customer segments." },
   { name := "Device Identifier", slug := "device-identifier", category := "device-info", version := "0.3.0", repository := "DeviceIdentifier", description := "Retrieve device model information (TAC/IMEI) for the authenticated subscriber." },
   { name := "Geofencing Subscriptions", slug := "geofencing-subscriptions", category := "location", version := "0.4.0", repository := "DeviceLocation", description := "Subscribe to notifications when a device enters or exits a defined geographical area." },
   { name := "KYC Age Verification", slug := "kyc-age-verification", category := "identity", version := "0.2.0", repository := "KnowYourCustomerAgeVerification", description := "Verify if a subscriber meets a minimum age threshold without revealing actual age." },
   { name := "KYC Fill-In", slug := "kyc-fill-in", category := "identity", version := "0.4.0", repository := "KnowYourCustomerFill-in", description := "Auto-fill customer identity data from operator records for onboarding." },
   { name := "KYC Match", slug := "kyc-match", category := "identity", version := "0.5.0", repository := "KnowYourCustomer", description := "Verify customer-provided identity attributes against operator records." },
   { name := "KYC Tenure", slug := "kyc-tenure", category := "identity", version := "0.2.0", repository := "Tenure", description := "Verify the length of tenure for a subscriber with their current operator." },
   { name := "Location Retrieval", slug := "location-retrieval", category := "location", version := "0.5.0", repository := "DeviceLocation", description := "Retrieve the approximate location of a mobile device from the network." },
   { name := "Number Recycling", slug := "number-recycling", category := "auth-fraud", version := "0.2.0", repository := "NumberRecycling", description := "Detect if a phone number has been reassigned to a new subscriber." },
   { name := "Population Density Data", slug := "population-density-data", category := "location", version := "0.4.0", repository := "PopulationDensityData", description := "Anonymized population density estimates based on network data." },
   { name := "Region Device Count", slug := "region-device-count", category := "location", version := "0.2.0", repository := "RegionDeviceCount", description := "Count of devices in a defined geographical region." },
   { name := "Scam Signal", slug := "scam-signal", category := "auth-fraud", version := "0.3.1", repository := "ScamSignal", description := "Real-time scam call detection signals for fraud prevention." },
   { name := "Verified Caller", slug := "verified-caller", category := "auth-fraud", version := "0.2.0", repository := "VerifiedCaller", description := "Prove caller authenticity to eliminate phone scams and spoofing." },
   { name := "WebRTC", slug := "webrtc", category := "communication", version := "0.1.0", repository := "WebRTC", description := "Browser-based real-time communication with network quality integration." },
   { name := "SMS", slug := "sms", category := "communication", version := "0.1.0", repository := "ShortMessageService", description := "Send and receive SMS messages through standardized API." },
   { name := "Connected Network Type", slug := "connected-network-type", category := "device-info", version := "0.1.0", repository := "DeviceStatus", description := "Identify the network technology (4G/5G/WiFi) a device is connected to." },
   { name := "Blockchain Public Address", slug := "blockchain-public-address", category := "identity", version := "0.1.0", repository := "BlockchainPublicAddress", description := "Associate blockchain wallet addresses with mobile identities." }]

-- ─── Tagged union over the two record variants ──────────────────────

/-- A catalog record: the tagged union `CamaraApi | InitialApi` that
`searchScore` receives in `src/services/catalog.ts`. -/
inductive ApiRec where
  | stable (a : CamaraApi)
  | initial (a : InitialApi)
deriving DecidableEq, Repr

/-- The combined catalog, stable records then initial records. -/
def ALL_RECORDS : List ApiRec :=
  STABLE_APIS.map ApiRec.stable ++ INITIAL_APIS.map ApiRec.initial

-- ─── Relevance scoring (src/services/catalog.ts, searchScore) ───────

/-- Embedding of `searchScore`: weighted case-insensitive substring
scoring.  The code lowercases the query once, lowercases `name`,
`description` and each use-case/industry entry before matching, but
matches `slug` and `category` against the lowercased query without
lowercasing them; the loops over `useCases` and `industries` add their
weight once and break at the first hit, i.e. they contribute iff some
entry matches.  Only the stable variant has `useCases`/`industries`. -/
def searchScore (api : ApiRec) (query : String) : Nat :=
  match api with
  | .stable a =>
    let q := lowerStr query
    (if containsStr (lowerStr a.name) q then 10 else 0)
    + (if containsStr a.slug q then 8 else 0)
    + (if containsStr a.category q then 5 else 0)
    + (if containsStr (lowerStr a.description) q then 3 else 0)
    + (if a.useCases.any (fun uc => containsStr (lowerStr uc) q) then 2 else 0)
    + (if a.industries.any (fun ind => containsStr (lowerStr ind) q) then 4 else 0)
  | .initial a =>
    let q := lowerStr query
    (if containsStr (lowerStr a.name) q then 10 else 0)
    + (if containsStr a.slug q then 8 else 0)
    + (if containsStr a.category q then 5 else 0)
    + (if containsStr (lowerStr a.description) q then 3 else 0)

/-- The relevance score exactly as the spec describes it: every field is
matched case-insensitively (including slug and category), weights
10/8/5/3, plus 4 if at least one industry entry matches and 2 if at
least one use-case entry matches; fields absent on the initial variant
contribute 0. -/
def specSearchScore (api : ApiRec) (query : String) : Nat :=
  match api with
  | .stable a =>
    (if ciContains a.name query then 10 else 0)
    + (if ciContains a.slug query then 8 else 0)
    + (if ciContains a.category query then 5 else 0)
    + (if ciContains a.description query then 3 else 0)
    + (if a.useCases.any (fun uc => ciContains uc query) then 2 else 0)
    + (if a.industries.any (fun ind => ciContains ind query) then 4 else 0)
  | .initial a =>
    (if ciContains a.name query then 10 else 0)
    + (if ciContains a.slug query then 8 else 0)
    + (if ciContains a.category query then 5 else 0)
    + (if ciContains a.description query then 3 else 0)

-- ─── Search result projections ──────────────────────────────────────

/-- The `ApiSearchResult` response shape of `src/types.ts`. -/
structure ApiSearchResult where
  name : String
  slug : String
  category : String
  status : String
  version : String
  description : String
  repository_url : String
  website_url : Option String
deriving DecidableEq, Repr

/-- Projection of a stable record (`toSearchResult`). -/
def toSearchResult (api : CamaraApi) : ApiSearchResult :=
  { name := api.name
    slug := api.slug
    category := api.category
    status := api.status
    version := api.latestVersion
    description := api.description
    repository_url := api.specUrl
    website_url := some api.websiteUrl }

/-- Projection of an initial record (`initialToSearchResult`); no
website URL is emitted for the initial variant. -/
def initialToSearchResult (api : InitialApi) : ApiSearchResult :=
  { name := api.name
    slug := api.slug
    category := api.category
    status := "initial"
    version := api.version
    description := api.description
    repository_url := CAMARA_BASE_URL ++ "/" ++ api.repository
    website_url := none }

-- ─── Filtering (src/services/catalog.ts, searchApis) ────────────────

/-- JavaScript truthiness of an optional string parameter: present and
non-empty. -/
def truthyStr : Option String → Bool
  | none => false
  | some s => !(s == "")

/-- The stable-record filter predicate of `searchApis` (early-return
chain in the source). -/
def keepStable (query category status : Option String) (api : CamaraApi) : Bool :=
  if truthyStr category && (api.category != category.getD "") then false
  else if truthyStr status && (api.status != status.getD "") then false
  else if truthyStr query && (searchScore (ApiRec.stable api) (query.getD "") == 0) then false
  else true

/-- The initial-record filter predicate of `searchApis`: a literal
`status === "stable"` check excludes all initial records from stable
searches, then any truthy status other than `"initial"` excludes them
too. -/
def keepInitial (query category status : Option String) (api : InitialApi) : Bool :=
  if truthyStr category && (api.category != category.getD "") then false
  else if status == some "stable" then false
  else if truthyStr status && (status.getD "" != "initial") then false
  else if truthyStr query && (searchScore (ApiRec.initial api) (query.getD "") == 0) then false
  else true

/-- The score attached to each filtered record: the relevance score when
the query is truthy, otherwise 0. -/
def scoreOf (query : Option String) (api : ApiRec) : Nat :=
  if truthyStr query then searchScore api (query.getD "") else 0

/-- One entry of the ranked intermediate list (`{ score, result }` in
the source). -/
structure ScoredResult where
  score : Nat
  result : ApiSearchResult
deriving DecidableEq, Repr

-- ─── Ordering (ranked sort) ─────────────────────────────────────────

/-- Modelled from the runtime: collation key of one character under the
default-locale `String.prototype.localeCompare` (ICU root collation) as
it acts on the catalog names, which consist of ASCII letters, spaces and
hyphens: at primary strength letter case is ignored and whitespace and
punctuation weigh below all letters. -/
def collKey (c : Char) : Nat :=
  if c == ' ' then 1
  else if c == '-' then 2
  else if 65 ≤ c.toNat ∧ c.toNat ≤ 90 then 100 + (c.toNat - 65)
  else if 97 ≤ c.toNat ∧ c.toNat ≤ 122 then 100 + (c.toNat - 97)
  else 50 + c.toNat

/-- Lexicographic order on collation-key lists. -/
def lexLeN (a b : List Nat) : Bool :=
  match a, b with
  | [], _ => true
  | _ :: _, [] => false
  | x :: xs, y :: ys => x < y || (x == y && lexLeN xs ys)

/-- Modelled from the runtime: `a.localeCompare(b) ≤ 0` under the
default locale, for the catalog's ASCII names (no two of which are
equal case-insensitively, so primary strength always decides). -/
def localeLe (a b : String) : Bool :=
  lexLeN (a.data.map collKey) (b.data.map collKey)

/-- Reflexive closure of the sort comparator
`(a, b) => b.score - a.score || a.result.name.localeCompare(b.result.name)`:
`rankLe a b` iff the comparator puts `a` at or before `b`. -/
def rankLe (a b : ScoredResult) : Bool :=
  decide (b.score < a.score) || ((a.score == b.score) && localeLe a.result.name b.result.name)

/-- The comparator as a decidable relation for `List.insertionSort`. -/
def RankRel (a b : ScoredResult) : Prop := rankLe a b = true

instance : DecidableRel RankRel := fun a b => inferInstanceAs (Decidable (rankLe a b = true))

/-- The filtered, scored and sorted pre-pagination sequence of
`searchApis` (the `combined` array of the source).  JavaScript
`Array.prototype.sort` is stable and the comparator is consistent, so it
is modelled by stable insertion sort on the comparator's reflexive
closure. -/
def combinedRanked (query category status : Option String) : List ScoredResult :=
  List.insertionSort RankRel
    ((STABLE_APIS.filter (keepStable query category status)).map
        (fun a => { score := scoreOf query (ApiRec.stable a), result := toSearchResult a })
      ++ (INITIAL_APIS.filter (keepInitial query category status)).map
        (fun a => { score := scoreOf query (ApiRec.initial a), result := initialToSearchResult a }))

-- ─── Pagination ─────────────────────────────────────────────────────

/-- ECMAScript `Array.prototype.slice(start, stop)`: negative indices
count from the end, both indices are clamped to `[0, length]`. -/
def jsSlice (l : List α) (start stop : Int) : List α :=
  let len : Int := l.length
  let s : Int := if start < 0 then max (len + start) 0 else min start len
  let e : Int := if stop < 0 then max (len + stop) 0 else min stop len
  (l.drop s.toNat).take (e - s).toNat

/-- The `PaginatedResponse<ApiSearchResult>` shape; `next_offset` is
present exactly when the source spreads it into the object. -/
structure PaginatedResponse where
  total : Nat
  count : Nat
  offset : Int
  items : List ApiSearchResult
  has_more : Bool
  next_offset : Option Int
deriving DecidableEq, Repr

/-- Embedding of `searchApis`: filter, score, sort, slice
`[offset, offset + limit)`, and report pagination metadata. -/
def searchApis (query category status : Option String) (limit : Int := 20) (offset : Int := 0) :
    PaginatedResponse :=
  let paged := jsSlice (combinedRanked query category status) offset (offset + limit)
  { total := (combinedRanked query category status).length
    count := paged.length
    offset := offset
    items := paged.map (fun r => r.result)
    has_more := decide (((combinedRanked query category status).length : Int) > offset + (paged.length : Int))
    next_offset :=
      if ((combinedRanked query category status).length : Int) > offset + (paged.length : Int) then
        some (offset + (paged.length : Int))
      else none }

-- ─── Detail lookup (src/services/catalog.ts, getApiDetail) ──────────

/-- The `ApiDetailResult` response shape of `src/types.ts`. -/
structure ApiDetailResult where
  name : String
  slug : String
  category : String
  status : String
  description : String
  latest_version : String
  previous_versions : List String
  repository_url : String
  website_url : String
  spec_url : String
  industries : List String
  auth_flow : String
  http_methods : List String
  key_endpoints : List String
  use_cases : List String
deriving DecidableEq, Repr

/-- Embedding of `getApiDetail`: exact, case-sensitive slug lookup over
the stable records only; `none` models the `null` not-found signal. -/
def getApiDetail (slug : String) : Option ApiDetailResult :=
  (STABLE_APIS.find? (fun a => a.slug == slug)).map (fun api =>
    { name := api.name
      slug := api.slug
      category := api.category
      status := api.status
      description := api.description
      latest_version := api.latestVersion
      previous_versions := api.previousVersions
      repository_url := api.specUrl
      website_url := api.websiteUrl
      spec_url := api.specUrl
      industries := api.industries
      auth_flow := api.authFlow
      http_methods := api.httpMethods
      key_endpoints := api.keyEndpoints
      use_cases := api.useCases })

-- ─── Comparison (src/tools/register.ts, camara_compare_apis) ────────

/-- The error message built by the handler when fewer than 2 slugs
resolve. -/
def compareErrorMsg : String :=
  "Need at least 2 valid stable API slugs. Valid: " ++
    String.intercalate ", " (STABLE_APIS.map (fun a => a.slug))

/-- Embedding of the `camara_compare_apis` handler core: look every
requested slug up, drop unresolved ones (`filter(Boolean)`), error out
below 2 resolved, otherwise return the projections in request order. -/
def compareApis (slugs : List String) : Except String (List ApiDetailResult) :=
  let details := (slugs.map getApiDetail).filterMap id
  if details.length < 2 then Except.error compareErrorMsg
  else Except.ok details

-- ─── Helper lemmas ──────────────────────────────────────────────────

theorem lexLeN_total (x y : List Nat) : lexLeN x y = true ∨ lexLeN y x = true := by
  induction x generalizing y with
  | nil => left; rfl
  | cons a as ih =>
    cases y with
    | nil => right; rfl
    | cons b bs =>
      rcases Nat.lt_trichotomy a b with h | h | h
      · left; simp [lexLeN, h]
      · subst h
        rcases ih bs with h' | h'
        · left; simp [lexLeN, h']
        · right; simp [lexLeN, h']
      · right; simp [lexLeN, h]

theorem lexLeN_trans {x y z : List Nat} (h1 : lexLeN x y = true) (h2 : lexLeN y z = true) :
    lexLeN x z = true := by
  induction x generalizing y z with
  | nil => rfl
  | cons a as ih =>
    cases y with
    | nil => simp [lexLeN] at h1
    | cons b bs =>
      cases z with
      | nil => simp [lexLeN] at h2
      | cons c cs =>
        simp only [lexLeN, Bool.or_eq_true, Bool.and_eq_true, decide_eq_true_eq,
          beq_iff_eq] at h1 h2 ⊢
        rcases h1 with h1 | ⟨hab, h1⟩
        · rcases h2 with h2 | ⟨hbc, h2⟩
          · exact Or.inl (h1.trans h2)
          · exact Or.inl (hbc ▸ h1)
        · rcases h2 with h2 | ⟨hbc, h2⟩
          · exact Or.inl (hab ▸ h2)
          · exact Or.inr ⟨hab.trans hbc, ih h1 h2⟩

theorem localeLe_total (a b : String) : localeLe a b = true ∨ localeLe b a = true :=
  lexLeN_total _ _

theorem localeLe_trans {a b c : String} (h1 : localeLe a b = true) (h2 : localeLe b c = true) :
    localeLe a c = true :=
  lexLeN_trans h1 h2

instance : IsTotal ScoredResult RankRel := ⟨by
  intro a b
  unfold RankRel rankLe
  rcases Nat.lt_trichotomy a.score b.score with h | h | h
  · right; simp [h]
  · rcases localeLe_total a.result.name b.result.name with h' | h'
    · left; simp [h, h']
    · right; simp [h, h']
  · left; simp [h]⟩

instance : IsTrans ScoredResult RankRel := ⟨by
  intro a b c hab hbc
  unfold RankRel rankLe at *
  simp only [Bool.or_eq_true, Bool.and_eq_true, decide_eq_true_eq, beq_iff_eq] at hab hbc ⊢
  rcases hab with hab | ⟨hab, hab'⟩
  · rcases hbc with hbc | ⟨hbc, hbc'⟩
    · exact Or.inl (hbc.trans hab)
    · exact Or.inl (hbc ▸ hab)
  · rcases hbc with hbc | ⟨hbc, hbc'⟩
    · exact Or.inl (hab ▸ hbc)
    · exact Or.inr ⟨hab.trans hbc, localeLe_trans hab' hbc'⟩⟩

theorem jsSlice_length (l : List α) (a b : Int) (ha : 0 ≤ a) (hb : 0 ≤ b) :
    (jsSlice l a b).length
      = ((min b (l.length : Int)) - min a (l.length : Int)).toNat := by
  simp only [jsSlice]
  rw [if_neg (by omega), if_neg (by omega)]
  simp only [List.length_take, List.length_drop]
  omega

theorem jsSlice_sublist (l : List α) (a b : Int) : List.Sublist (jsSlice l a b) l := by
  unfold jsSlice
  exact (List.take_sublist _ _).trans (List.drop_sublist _ _)

theorem stable_lower_fixed :
    ∀ a ∈ STABLE_APIS, lowerStr a.slug = a.slug ∧ lowerStr a.category = a.category := by
  decide

theorem initial_lower_fixed :
    ∀ a ∈ INITIAL_APIS, lowerStr a.slug = a.slug ∧ lowerStr a.category = a.category := by
  decide

theorem stableScore_eq_spec (a : CamaraApi) (h1 : lowerStr a.slug = a.slug)
    (h2 : lowerStr a.category = a.category) (q : String) :
    searchScore (ApiRec.stable a) q = specSearchScore (ApiRec.stable a) q := by
  simp only [searchScore, specSearchScore, ciContains, h1, h2]

theorem initialScore_eq_spec (a : InitialApi) (h1 : lowerStr a.slug = a.slug)
    (h2 : lowerStr a.category = a.category) (q : String) :
    searchScore (ApiRec.initial a) q = specSearchScore (ApiRec.initial a) q := by
  simp only [searchScore, specSearchScore, ciContains, h1, h2]

theorem mem_combinedRanked {query category status : Option String} {p : ScoredResult}
    (h : p ∈ combinedRanked query category status) :
    (∃ a, a ∈ STABLE_APIS.filter (keepStable query category status)
        ∧ p = { score := scoreOf query (ApiRec.stable a), result := toSearchResult a })
    ∨ (∃ a, a ∈ INITIAL_APIS.filter (keepInitial query category status)
        ∧ p = { score := scoreOf query (ApiRec.initial a), result := initialToSearchResult a }) := by
  unfold combinedRanked at h
  rw [List.mem_insertionSort] at h
  rcases List.mem_append.mp h with h | h
  · obtain ⟨a, ha, rfl⟩ := List.mem_map.mp h
    exact Or.inl ⟨a, ha, rfl⟩
  · obtain ⟨a, ha, rfl⟩ := List.mem_map.mp h
    exact Or.inr ⟨a, ha, rfl⟩

theorem scoreOf_query {q : String} (hq : q ≠ "") (r : ApiRec) :
    scoreOf (some q) r = searchScore r q := by
  simp [scoreOf, truthyStr, beq_eq_false_iff_ne.mpr hq]

theorem keepStable_eq_true_iff {q : String} {category status : Option String} {a : CamaraApi}
    (hq : q ≠ "") (hc : category ≠ some "") (hs : status ≠ some "") :
    keepStable (some q) category status a = true
      ↔ (category = none ∨ category = some a.category)
        ∧ (status = none ∨ status = some a.status)
        ∧ 0 < searchScore (ApiRec.stable a) q := by
  have hq' : (q == "") = false := beq_eq_false_iff_ne.mpr hq
  rcases category with _ | c <;> rcases status with _ | s
  · by_cases h3 : searchScore (ApiRec.stable a) q = 0 <;>
      simp [keepStable, truthyStr, hq', h3, Nat.pos_iff_ne_zero]
  · have hs' : (s == "") = false :=
      beq_eq_false_iff_ne.mpr (fun h => hs (congrArg some h))
    by_cases h2 : a.status = s <;> by_cases h3 : searchScore (ApiRec.stable a) q = 0 <;>
      simp [keepStable, truthyStr, hq', hs', h2, h3, Nat.pos_iff_ne_zero] <;>
      try (first | exact fun h => h1 h.symm | exact fun h => h2 h.symm | (intros; simp_all))
  · have hc' : (c == "") = false :=
      beq_eq_false_iff_ne.mpr (fun h => hc (congrArg some h))
    by_cases h1 : a.category = c <;> by_cases h3 : searchScore (ApiRec.stable a) q = 0 <;>
      simp [keepStable, truthyStr, hq', hc', h1, h3, Nat.pos_iff_ne_zero] <;>
      try (first | exact fun h => h1 h.symm | exact fun h => h2 h.symm | (intros; simp_all))
  · have hc' : (c == "") = false :=
      beq_eq_false_iff_ne.mpr (fun h => hc (congrArg some h))
    have hs' : (s == "") = false :=
      beq_eq_false_iff_ne.mpr (fun h => hs (congrArg some h))
    by_cases h1 : a.category = c <;> by_cases h2 : a.status = s <;>
      by_cases h3 : searchScore (ApiRec.stable a) q = 0 <;>
      simp [keepStable, truthyStr, hq', hc', hs', h1, h2, h3, Nat.pos_iff_ne_zero] <;>
      try (first | exact fun h => h1 h.symm | exact fun h => h2 h.symm | (intros; simp_all))

theorem keepInitial_eq_true_iff {q : String} {category status : Option String} {a : InitialApi}
    (hq : q ≠ "") (hc : category ≠ some "") (hs : status ≠ some "") :
    keepInitial (some q) category status a = true
      ↔ (category = none ∨ category = some a.category)
        ∧ (status = none ∨ status = some "initial")
        ∧ 0 < searchScore (ApiRec.initial a) q := by
  have hq' : (q == "") = false := beq_eq_false_iff_ne.mpr hq
  rcases category with _ | c <;> rcases status with _ | s
  · by_cases h3 : searchScore (ApiRec.initial a) q = 0 <;>
      simp [keepInitial, truthyStr, hq', h3, Nat.pos_iff_ne_zero]
  · have hs' : (s == "") = false :=
      beq_eq_false_iff_ne.mpr (fun h => hs (congrArg some h))
    by_cases h2 : s = "initial" <;> by_cases h2' : s = "stable" <;>
      by_cases h3 : searchScore (ApiRec.initial a) q = 0 <;>
      simp [keepInitial, truthyStr, hq', hs', h2, h2', h3, Nat.pos_iff_ne_zero] <;>
      try (first | exact fun h => h1 h.symm | exact fun h => h2 h.symm | (intros; simp_all))
  · have hc' : (c == "") = false :=
      beq_eq_false_iff_ne.mpr (fun h => hc (congrArg some h))
    by_cases h1 : a.category = c <;> by_cases h3 : searchScore (ApiRec.initial a) q = 0 <;>
      simp [keepInitial, truthyStr, hq', hc', h1, h3, Nat.pos_iff_ne_zero] <;>
      try (first | exact fun h => h1 h.symm | exact fun h => h2 h.symm | (intros; simp_all))
  · have hc' : (c == "") = false :=
      beq_eq_false_iff_ne.mpr (fun h => hc (congrArg some h))
    have hs' : (s == "") = false :=
      beq_eq_false_iff_ne.mpr (fun h => hs (congrArg some h))
    by_cases h1 : a.category = c <;> by_cases h2 : s = "initial" <;> by_cases h2' : s = "stable" <;>
      by_cases h3 : searchScore (ApiRec.initial a) q = 0 <;>
      simp [keepInitial, truthyStr, hq', hc', hs', h1, h2, h2', h3, Nat.pos_iff_ne_zero] <;>
      try (first | exact fun h => h1 h.symm | exact fun h => h2 h.symm | (intros; simp_all))

theorem combined_score_pos {q : String} {category status : Option String}
    (hq : q ≠ "") (hc : category ≠ some "") (hs : status ≠ some "") :
    ∀ p ∈ combinedRanked (some q) category status, 0 < p.score := by
  intro p hp
  rcases mem_combinedRanked hp with ⟨a, ha, rfl⟩ | ⟨a, ha, rfl⟩
  · have h := (keepStable_eq_true_iff hq hc hs).mp (List.mem_filter.mp ha).2
    simpa [scoreOf_query hq] using h.2.2
  · have h := (keepInitial_eq_true_iff hq hc hs).mp (List.mem_filter.mp ha).2
    simpa [scoreOf_query hq] using h.2.2

-- ─── Claims ─────────────────────────────────────────────────────────

/-- C1: for every catalog record (stable or initial) and every non-empty
query string, the relevance score computed by `searchScore` equals the
spec-described sum of weighted case-insensitive substring matches
(name 10, slug 8, category 5, description 3, at least one industry
entry 4, at least one use-case entry 2; fields absent on the initial
variant contribute 0). -/
theorem c1_score_matches_spec :
    ∀ api ∈ ALL_RECORDS, ∀ q : String, q ≠ "" →
      searchScore api q = specSearchScore api q := by
  intro api hmem q _
  rcases List.mem_append.mp hmem with h | h
  · obtain ⟨a, ha, rfl⟩ := List.mem_map.mp h
    exact stableScore_eq_spec a (stable_lower_fixed a ha).1 (stable_lower_fixed a ha).2 q
  · obtain ⟨a, ha, rfl⟩ := List.mem_map.mp h
    exact initialScore_eq_spec a (initial_lower_fixed a ha).1 (initial_lower_fixed a ha).2 q

/-- C1 witness: the equality at a concrete record and query. -/
theorem c1_score_matches_spec_witness :
    searchScore (ApiRec.stable simSwapApi) "Fraud"
      = specSearchScore (ApiRec.stable simSwapApi) "Fraud" :=
  c1_score_matches_spec (ApiRec.stable simSwapApi) (by decide) "Fraud" (by decide)

/-- C9: the search engine is a pure function of its five parameters —
two invocations with identical query, category, status, limit and
offset against the unchanged catalog produce identical responses,
items ordering and pagination metadata included. -/
theorem c9_search_deterministic (qa qb ca cb sa sb : Option String) (la lb oa ob : Int)
    (hq : qa = qb) (hc : ca = cb) (hs : sa = sb) (hl : la = lb) (ho : oa = ob) :
    searchApis qa ca sa la oa = searchApis qb cb sb lb ob := by
  subst hq hc hs hl ho
  rfl

/-- C9 witness: determinism at a concrete parameter tuple. -/
theorem c9_search_deterministic_witness :
    searchApis (some "fraud") none none 20 0 = searchApis (some "fraud") none none 20 0 :=
  c9_search_deterministic (some "fraud") (some "fraud") none none none none 20 20 0 0
    rfl rfl rfl rfl rfl

/-- C10: duplicate occurrences of a valid stable slug in the comparison
input are not deduplicated — each occurrence resolves independently and
counts separately toward the at-least-2-resolved threshold, so
comparing a slug with itself succeeds and returns the same detail
projection twice. -/
theorem c10_compare_duplicates (s : String) (d : ApiDetailResult)
    (h : getApiDetail s = some d) :
    compareApis [s, s] = Except.ok [d, d] := by
  simp [compareApis, h]

/-- C10 witness: `compare(["sim-swap","sim-swap"])` succeeds with the
SIM Swap projection twice. -/
theorem c10_compare_duplicates_witness :
    ∃ d, getApiDetail "sim-swap" = some d
      ∧ compareApis ["sim-swap", "sim-swap"] = Except.ok [d, d] :=
  ⟨_, rfl, c10_compare_duplicates "sim-swap" _ rfl⟩

/-- C2: for every search call (with schema-valid limit and offset),
`total` is the size of the filtered pre-pagination set, the items are
the slice `[offset, offset + limit)` of the full ranked sequence,
`count = min(limit, total - offset)` when `offset < total` and 0
otherwise, `has_more` holds iff `offset + count < total`, and
`next_offset = offset + count` is present exactly when `has_more`. -/
theorem c2_pagination_contract (query category status : Option String) (limit offset : Int)
    (hl : 1 ≤ limit) (ho : 0 ≤ offset) (r : PaginatedResponse)
    (hr : r = searchApis query category status limit offset) :
    r.total = (STABLE_APIS.filter (keepStable query category status)).length
        + (INITIAL_APIS.filter (keepInitial query category status)).length
    ∧ r.items = (jsSlice (combinedRanked query category status) offset (offset + limit)).map
        (fun p => p.result)
    ∧ ((r.count : Int) = if offset < (r.total : Int) then min limit ((r.total : Int) - offset) else 0)
    ∧ (r.has_more = true ↔ offset + (r.count : Int) < (r.total : Int))
    ∧ (r.has_more = true → r.next_offset = some (offset + (r.count : Int)))
    ∧ (r.has_more = false → r.next_offset = none) := by
  subst hr
  have htot : (searchApis query category status limit offset).total
      = (combinedRanked query category status).length := rfl
  have hcnt : (searchApis query category status limit offset).count
      = (jsSlice (combinedRanked query category status) offset (offset + limit)).length := rfl
  have hlen := jsSlice_length (combinedRanked query category status) offset (offset + limit)
    ho (by omega)
  have hmore : (searchApis query category status limit offset).has_more
      = decide (((combinedRanked query category status).length : Int)
          > offset + ((jsSlice (combinedRanked query category status) offset (offset + limit)).length : Int)) := rfl
  refine ⟨?_, rfl, ?_, ?_, ?_, ?_⟩
  · rw [htot]
    unfold combinedRanked
    rw [List.length_insertionSort, List.length_append, List.length_map, List.length_map]
  · rw [hcnt, htot, hlen]
    by_cases h : offset < ((combinedRanked query category status).length : Int)
    · rw [if_pos h]; omega
    · rw [if_neg h]; omega
  · rw [hmore, hcnt, htot]
    simp only [gt_iff_lt, decide_eq_true_eq]
  · intro h
    rw [hmore] at h
    have hc2 : ((combinedRanked query category status).length : Int)
        > offset + ((jsSlice (combinedRanked query category status) offset (offset + limit)).length : Int) :=
      of_decide_eq_true h
    have hnext : (searchApis query category status limit offset).next_offset
        = if ((combinedRanked query category status).length : Int)
              > offset + ((jsSlice (combinedRanked query category status) offset (offset + limit)).length : Int)
          then some (offset + ((jsSlice (combinedRanked query category status) offset (offset + limit)).length : Int))
          else none := rfl
    rw [hnext, if_pos hc2, hcnt]
  · intro h
    rw [hmore] at h
    have hc2 : ¬ (((combinedRanked query category status).length : Int)
        > offset + ((jsSlice (combinedRanked query category status) offset (offset + limit)).length : Int)) :=
      of_decide_eq_false h
    have hnext : (searchApis query category status limit offset).next_offset
        = if ((combinedRanked query category status).length : Int)
              > offset + ((jsSlice (combinedRanked query category status) offset (offset + limit)).length : Int)
          then some (offset + ((jsSlice (combinedRanked query category status) offset (offset + limit)).length : Int))
          else none := rfl
    rw [hnext, if_neg hc2]

/-- C2 witness: the pagination contract at the default parameters
(31-record catalog, limit 20, offset 0). -/
theorem c2_pagination_contract_witness :
    (searchApis none none none 20 0).total
        = (STABLE_APIS.filter (keepStable none none none)).length
          + (INITIAL_APIS.filter (keepInitial none none none)).length
    ∧ (searchApis none none none 20 0).items
        = (jsSlice (combinedRanked none none none) 0 (0 + 20)).map (fun p => p.result)
    ∧ (((searchApis none none none 20 0).count : Int)
        = if (0 : Int) < ((searchApis none none none 20 0).total : Int)
          then min 20 (((searchApis none none none 20 0).total : Int) - 0) else 0)
    ∧ ((searchApis none none none 20 0).has_more = true
        ↔ (0 : Int) + ((searchApis none none none 20 0).count : Int)
            < ((searchApis none none none 20 0).total : Int))
    ∧ ((searchApis none none none 20 0).has_more = true
        → (searchApis none none none 20 0).next_offset
            = some ((0 : Int) + ((searchApis none none none 20 0).count : Int)))
    ∧ ((searchApis none none none 20 0).has_more = false
        → (searchApis none none none 20 0).next_offset = none) :=
  c2_pagination_contract none none none 20 0 (by decide) (by decide)
    (searchApis none none none 20 0) rfl

/-- C3 counterexample: with no query (all scores 0) the whole catalog is
ordered purely by the name comparison, and there the output puts
"Scam Signal" before "SIM Swap" even though "SIM Swap" is the ordinally
(code-point) smaller name — so the ordering is not the case-sensitive
ordinal comparison the claim asserts.  The source sorts with
`a.result.name.localeCompare(b.result.name)`, whose default-locale
collation ignores letter case at primary strength. -/
theorem c3_counterexample :
    ordinalLt "SIM Swap" "Scam Signal" = true
    ∧ "SIM Swap" ∈ (searchApis none none none 100 0).items.map (fun r => r.name)
    ∧ "Scam Signal" ∈ (searchApis none none none 100 0).items.map (fun r => r.name)
    ∧ ((searchApis none none none 100 0).items.map (fun r => r.name)).indexOf "Scam Signal"
        < ((searchApis none none none 100 0).items.map (fun r => r.name)).indexOf "SIM Swap" := by
  decide

/-- C3 (amended): results are ordered primarily by relevance score
descending, and ties are broken by display name ascending under the
runtime's locale-aware comparison (`localeCompare`, modelled as ICU
default-locale primary-strength collation, which ignores letter case),
not by case-sensitive ordinal comparison; when the query is absent the
whole filtered set is ordered by that same locale-aware name
comparison (all scores being 0).  The paged items are a slice of this
ranked sequence. -/
theorem c3_amended_ranking_order (query category status : Option String) :
    (combinedRanked query category status).Pairwise
      (fun p1 p2 => p2.score < p1.score
        ∨ (p1.score = p2.score ∧ localeLe p1.result.name p2.result.name = true))
    ∧ ∀ limit offset : Int,
        (searchApis query category status limit offset).items
          = (jsSlice (combinedRanked query category status) offset (offset + limit)).map
              (fun p => p.result) := by
  constructor
  · have h := List.sorted_insertionSort RankRel
      ((STABLE_APIS.filter (keepStable query category status)).map
          (fun a => { score := scoreOf query (ApiRec.stable a), result := toSearchResult a })
        ++ (INITIAL_APIS.filter (keepInitial query category status)).map
          (fun a => { score := scoreOf query (ApiRec.initial a), result := initialToSearchResult a }))
    refine h.imp (fun hab => ?_)
    unfold RankRel rankLe at hab
    simpa only [Bool.or_eq_true, Bool.and_eq_true, decide_eq_true_eq, beq_iff_eq] using hab
  · intro limit offset
    rfl

/-- C4: with a present, non-empty query (and schema-valid filters), a
record enters the filtered candidate set iff it passes the category
filter, the status filter, and its relevance score is strictly
positive; consequently every item the search returns arises from a
ranked entry with score strictly greater than zero — zero-score records
are dropped, not ranked last. -/
theorem c4_positive_score_filtering (q : String) (category status : Option String)
    (hq : q ≠ "") (hc : category ≠ some "") (hs : status ≠ some "") :
    (∀ a : CamaraApi,
        a ∈ STABLE_APIS.filter (keepStable (some q) category status)
          ↔ a ∈ STABLE_APIS ∧ (category = none ∨ category = some a.category)
              ∧ (status = none ∨ status = some a.status)
              ∧ 0 < searchScore (ApiRec.stable a) q)
    ∧ (∀ a : InitialApi,
        a ∈ INITIAL_APIS.filter (keepInitial (some q) category status)
          ↔ a ∈ INITIAL_APIS ∧ (category = none ∨ category = some a.category)
              ∧ (status = none ∨ status = some "initial")
              ∧ 0 < searchScore (ApiRec.initial a) q)
    ∧ (∀ limit offset : Int, ∀ x ∈ (searchApis (some q) category status limit offset).items,
        ∃ p ∈ combinedRanked (some q) category status, p.result = x ∧ 0 < p.score) := by
  refine ⟨?_, ?_, ?_⟩
  · intro a
    rw [List.mem_filter, keepStable_eq_true_iff hq hc hs]
  · intro a
    rw [List.mem_filter, keepInitial_eq_true_iff hq hc hs]
  · intro limit offset x hx
    obtain ⟨p, hp, rfl⟩ := List.mem_map.mp
      (show x ∈ (jsSlice (combinedRanked (some q) category status) offset (offset + limit)).map
          (fun p => p.result) from hx)
    have hpc : p ∈ combinedRanked (some q) category status := (jsSlice_sublist _ _ _).mem hp
    exact ⟨p, hpc, rfl, combined_score_pos hq hc hs p hpc⟩

/-- C4 witness: One-Time Password SMS enters the candidate set of the
query "fraud" (no filters), and its score is positive. -/
theorem c4_positive_score_filtering_witness :
    oneTimePasswordSmsApi ∈ STABLE_APIS.filter (keepStable (some "fraud") none none)
    ∧ 0 < searchScore (ApiRec.stable oneTimePasswordSmsApi) "fraud" := by
  have h := (c4_positive_score_filtering "fraud" none none (by decide) (by decide) (by decide)).1
    oneTimePasswordSmsApi
  exact ⟨h.mpr ⟨by decide, Or.inl rfl, Or.inl rfl, by decide⟩, by decide⟩

/-- C5 counterexample: `search(query="fraud", category="auth-fraud")`
does return One-Time Password SMS, but none of that record's name,
slug, description, industries or use cases contains "fraud"
case-insensitively — it matches only through the category identifier
"auth-fraud", which the claim's field list omits. -/
theorem c5_counterexample :
    "one-time-password-sms"
        ∈ (searchApis (some "fraud") (some "auth-fraud") none 20 0).items.map (fun r => r.slug)
    ∧ oneTimePasswordSmsApi.slug = "one-time-password-sms"
    ∧ ciContains oneTimePasswordSmsApi.name "fraud" = false
    ∧ ciContains oneTimePasswordSmsApi.slug "fraud" = false
    ∧ ciContains oneTimePasswordSmsApi.description "fraud" = false
    ∧ oneTimePasswordSmsApi.industries.any (fun i => ciContains i "fraud") = false
    ∧ oneTimePasswordSmsApi.useCases.any (fun u => ciContains u "fraud") = false := by
  decide

/-- C5 (amended): `search(query="fraud", category="auth-fraud")`
returns a non-empty set in which every member's category is
"auth-fraud" and every member's name, slug, category identifier or
description contains "fraud" case-insensitively — the category
identifier "auth-fraud" itself contains "fraud", which is how members
such as One-Time Password SMS qualify. -/
theorem c5_amended_fraud_search :
    (searchApis (some "fraud") (some "auth-fraud") none 20 0).items ≠ []
    ∧ ∀ x ∈ (searchApis (some "fraud") (some "auth-fraud") none 20 0).items,
        x.category = "auth-fraud"
        ∧ (ciContains x.name "fraud" || ciContains x.slug "fraud"
            || ciContains x.category "fraud" || ciContains x.description "fraud") = true := by
  decide

/-- C6 counterexample: the engine does not clamp — at `limit = 0`
(below the contract's minimum of 1) it returns an empty page, while the
claimed clamped behaviour (`limit` raised to 1) returns one item; at
`offset = -1` it likewise returns an empty page, while clamping
(`offset` raised to 0) returns 20 items. -/
theorem c6_counterexample :
    (searchApis none none none 0 0).count = 0
    ∧ (searchApis none none none 1 0).count = 1
    ∧ searchApis none none none 0 0 ≠ searchApis none none none 1 0
    ∧ (searchApis none none none 20 (-1)).count = 0
    ∧ (searchApis none none none 20 0).count = 20
    ∧ searchApis none none none 20 (-1) ≠ searchApis none none none 20 0 := by
  decide

/-- C6 (amended): the engine performs no defensive clamping; `limit`
and `offset` flow unchanged into the JavaScript `slice` call.  In
particular any `limit ≤ 0` (with non-negative `offset` and
`offset + limit`) yields an empty page with `count = 0` instead of the
clamped one-item page; range enforcement happens upstream in schema
validation. -/
theorem c6_amended_no_clamp (query category status : Option String) (limit offset : Int)
    (hl : limit ≤ 0) (ho : 0 ≤ offset) (hol : 0 ≤ offset + limit) :
    (searchApis query category status limit offset).items = []
    ∧ (searchApis query category status limit offset).count = 0 := by
  have hlen := jsSlice_length (combinedRanked query category status) offset (offset + limit) ho hol
  have h0 : (jsSlice (combinedRanked query category status) offset (offset + limit)).length = 0 := by
    rw [hlen]; omega
  have hnil : jsSlice (combinedRanked query category status) offset (offset + limit) = [] :=
    List.length_eq_zero.mp h0
  constructor
  · show (jsSlice (combinedRanked query category status) offset (offset + limit)).map
        (fun p => p.result) = []
    rw [hnil]
    rfl
  · exact h0

/-- C6 amended witness: the empty page at `limit = 0`. -/
theorem c6_amended_no_clamp_witness :
    (searchApis none none none 0 0).items = [] ∧ (searchApis none none none 0 0).count = 0 :=
  c6_amended_no_clamp none none none 0 0 (by decide) (by decide) (by decide)

/-- C7: for a comparison call with 2–5 slugs, each slug is looked up
among the stable records in request order and unresolved slugs are
silently dropped; the call returns one detail projection per resolved
slug (in request order) iff at least 2 resolve, and otherwise reports
the error naming the valid slug universe.  Concretely,
`compare(["sim-swap","device-swap"])` returns exactly those 2
projections in that order and `compare(["sim-swap","not-a-real-slug"])`
fails with the need-at-least-2-valid-slugs error. -/
theorem c7_compare_contract (slugs : List String)
    (hn2 : 2 ≤ slugs.length) (hn5 : slugs.length ≤ 5) :
    (2 ≤ ((slugs.map getApiDetail).filterMap id).length →
        compareApis slugs = Except.ok ((slugs.map getApiDetail).filterMap id))
    ∧ (((slugs.map getApiDetail).filterMap id).length < 2 →
        compareApis slugs = Except.error compareErrorMsg)
    ∧ (containsStr compareErrorMsg "Need at least 2 valid" = true
        ∧ ∀ a ∈ STABLE_APIS, containsStr compareErrorMsg a.slug = true)
    ∧ (∃ l, compareApis ["sim-swap", "device-swap"] = Except.ok l
        ∧ l.map (fun d => d.slug) = ["sim-swap", "device-swap"])
    ∧ compareApis ["sim-swap", "not-a-real-slug"] = Except.error compareErrorMsg := by
  refine ⟨?_, ?_, ⟨by decide, by decide⟩,
    ⟨(["sim-swap", "device-swap"].map getApiDetail).filterMap id, rfl, by decide⟩, rfl⟩
  · intro h
    unfold compareApis
    rw [if_neg (by omega)]
  · intro h
    unfold compareApis
    rw [if_pos h]

/-- C7 witness: the concrete two-slug comparison succeeds in order. -/
theorem c7_compare_contract_witness :
    ∃ l, compareApis ["sim-swap", "device-swap"] = Except.ok l
      ∧ l.map (fun d => d.slug) = ["sim-swap", "device-swap"] :=
  (c7_compare_contract ["sim-swap", "device-swap"] (by decide) (by decide)).2.2.2.1

theorem keepInitial_stable_false (query category : Option String) (a : InitialApi) :
    keepInitial query category (some "stable") a = false := by
  unfold keepInitial
  by_cases h : truthyStr category && (a.category != category.getD "")
  · rw [if_pos h]
  · rw [if_neg h,
      if_pos (show ((some "stable" : Option String) == some "stable") = true by decide)]

/-- C8: every slug of a record returned by a `status = "stable"` search
resolves through the detail lookup (which never reports not-found on
them), and conversely any slug that is not the slug of a stable record
— in particular every initial-variant slug — makes the detail lookup
return the not-found signal. -/
theorem c8_stable_detail_roundtrip :
    (∀ (query category : Option String) (limit offset : Int),
        ∀ x ∈ (searchApis query category (some "stable") limit offset).items,
          (getApiDetail x.slug).isSome = true)
    ∧ (∀ s : String, (∀ a ∈ STABLE_APIS, a.slug ≠ s) → getApiDetail s = none)
    ∧ (∀ a ∈ INITIAL_APIS, getApiDetail a.slug = none) := by
  refine ⟨?_, ?_, by decide⟩
  · intro query category limit offset x hx
    obtain ⟨p, hp, rfl⟩ := List.mem_map.mp
      (show x ∈ (jsSlice (combinedRanked query category (some "stable")) offset (offset + limit)).map
          (fun p => p.result) from hx)
    have hpc : p ∈ combinedRanked query category (some "stable") := (jsSlice_sublist _ _ _).mem hp
    rcases mem_combinedRanked hpc with ⟨a, ha, rfl⟩ | ⟨a, ha, rfl⟩
    · have haS : a ∈ STABLE_APIS := (List.mem_filter.mp ha).1
      show (Option.map _ (STABLE_APIS.find? (fun b => b.slug == a.slug))).isSome = true
      have hsome : (STABLE_APIS.find? (fun b => b.slug == a.slug)).isSome = true :=
        List.find?_isSome.mpr ⟨a, haS, beq_self_eq_true a.slug⟩
      cases hfind : STABLE_APIS.find? (fun b => b.slug == a.slug) with
      | none => rw [hfind] at hsome; exact absurd hsome (by simp)
      | some v => rfl
    · have hkeep := (List.mem_filter.mp ha).2
      rw [keepInitial_stable_false] at hkeep
      exact absurd hkeep (by simp)
  · intro s hs
    have : STABLE_APIS.find? (fun b => b.slug == s) = none :=
      List.find?_eq_none.mpr (fun a ha => by simpa using hs a ha)
    show (Option.map _ (STABLE_APIS.find? (fun b => b.slug == s))) = none
    rw [this]
    rfl

/-- C8 witness: a stable search result slug resolves, and a non-stable
slug (the initial record WebRTC) does not. -/
theorem c8_stable_detail_roundtrip_witness :
    (getApiDetail ((toSearchResult simSwapApi).slug)).isSome = true
    ∧ getApiDetail "webrtc" = none := by
  constructor
  · exact c8_stable_detail_roundtrip.1 none none 100 0 (toSearchResult simSwapApi) (by decide)
  · exact c8_stable_detail_roundtrip.2.1 "webrtc" (by decide)
